import Mathlib

/-!
Verification development for `spamfightbot` (single source file
`spamfightbot/__main__.py`): a Telegram moderation bot that pairs a
"front" chat with protected group chats and removes users who self-join
a group without being a member of its paired front.

The embedding follows the Python source closely:

* The persistent `shelve` store is an association list from string keys
  to values; a value is either an integer front-chat id (under a
  `str(group_id)` key) or the persisted `front_groups` set (under the
  reserved key `"front_groups"`).  Python dict semantics: keys are
  unique, assignment replaces the existing entry in place, a new key is
  appended; lookups/updates below act on the first occurrence, which
  coincides with dict behaviour on the duplicate-free lists the
  operations produce.
* `ExpiringDict` (imported from `.lib.expiringdict`, whose code is not
  part of this repository) is modelled from the spec §4.1: entries
  stamped with `now + ttl` at insertion, lazily swept by `expire`,
  oldest-inserted-first eviction above `maxsize`.
* Side effects (ban, delete message, leave chat) are collected in a
  list of `Effect`s; outcomes of the external membership queries are an
  explicit oracle (`Env`).
-/

namespace Spamfight

/-- A value stored in the persistent store: either an integer
front-chat id, or the persisted `front_groups` set (Python `set[int]`,
modelled extensionally as a `Finset Int`). -/
inductive StoreVal : Type
  | ival (n : Int)
  | sval (s : Finset Int)
  deriving DecidableEq

/-- The persistent store: an association list with Python dict
semantics. -/
abbrev Store : Type := List (String × StoreVal)

/-- `store.get(k)` / `store[k]` read. -/
def getk : Store → String → Option StoreVal
  | [], _ => none
  | p :: t, k => if p.1 = k then some p.2 else getk t k

/-- `store[k] = v`: replace the existing entry in place, append when
the key is new (Python dict assignment). -/
def setk : Store → String → StoreVal → Store
  | [], k, v => [(k, v)]
  | p :: t, k, v => if p.1 = k then (k, v) :: t else p :: setk t k v

/-- `del store[k]` with `KeyError` ignored. -/
def delk : Store → String → Store
  | [], _ => []
  | p :: t, k => if p.1 = k then delk t k else p :: delk t k

/-- `{g for g in store.values() if isinstance(g, int)}`: the set of all
integer values anywhere in the store (the persisted `front_groups` set
itself is a `set`, not an `int`, so it never contributes). -/
def intValsFS (st : Store) : Finset Int :=
  (st.filterMap (fun p => match p.2 with
    | StoreVal.ival n => some n
    | StoreVal.sval _ => none)).toFinset

/-- The persisted `front_groups` set as read back from the store
(empty when absent or malformed). -/
def getFG (st : Store) : Finset Int :=
  match getk st "front_groups" with
  | some (StoreVal.sval s) => s
  | _ => ∅

/-- `is_known_front` (spec §4.2): membership test against the
persisted `front_groups` set, as used by
`group_id not in self.store['front_groups']`. -/
def is_known_front (st : Store) (chatId : Int) : Bool :=
  chatId ∈ getFG st

/-- The pairing commit of `newpair_impl` (source lines 98-99): first
`store['front_groups'] = {g for g in store.values() if isinstance(g, int)}`
(recomputed from the store as it is BEFORE the insertion), then
`store[str(group_id)] = front_id`. -/
def pair (st : Store) (groupId frontId : Int) : Store :=
  setk (setk st "front_groups" (StoreVal.sval (intValsFS st)))
    (toString groupId) (StoreVal.ival frontId)

/-- Un-pairing (`del self.store[str(chat_id)]` with `KeyError`
swallowed), as performed when the bot is removed from a chat and at the
outer fault boundary.  `front_groups` is NOT recomputed here. -/
def unpair (st : Store) (chatId : Int) : Store :=
  delk st (toString chatId)

/-- `SpamFightBot.__init__` effect on the store (source line 35):
`store['front_groups'] = {g for g in store.values() if isinstance(g, int)}`. -/
def botInit (st : Store) : Store :=
  setk st "front_groups" (StoreVal.sval (intValsFS st))

/-- The pairing mapping proper: all entries other than the reserved
`front_groups` key. -/
def pairMapOf (st : Store) : Store :=
  delk st "front_groups"

/-- Modelled from the spec: the set of all front-chat-ids currently
used as a value anywhere in the pairing mapping (spec §3, the intended
reading of the derived `front_groups` set). -/
def mappingFronts (st : Store) : Finset Int :=
  ((pairMapOf st).filterMap (fun p => match p.2 with
    | StoreVal.ival n => some n
    | StoreVal.sval _ => none)).toFinset

/-- Well-formed store: the reserved key holds a set value, every other
key holds an integer front id. -/
def StoreWF (st : Store) : Prop :=
  ∀ p ∈ st, if p.1 = "front_groups" then (∃ s, p.2 = StoreVal.sval s)
            else (∃ n, p.2 = StoreVal.ival n)

/-! ### Association-list lemmas -/

theorem getk_setk_self (st : Store) (k : String) (v : StoreVal) :
    getk (setk st k v) k = some v := by
  induction st with
  | nil => simp [setk, getk]
  | cons p t ih =>
    by_cases h : p.1 = k
    · simp [setk, getk, h]
    · simp [setk, getk, h, ih]

theorem getk_setk_ne (st : Store) (k k' : String) (v : StoreVal)
    (h : k' ≠ k) : getk (setk st k v) k' = getk st k' := by
  have h2 : ¬ (k = k') := fun hh => h hh.symm
  induction st with
  | nil => simp [setk, getk, h2]
  | cons p t ih =>
    by_cases hp : p.1 = k
    · have hp2 : ¬ (p.1 = k') := by rw [hp]; exact h2
      simp [setk, getk, hp, hp2, h2]
    · by_cases hp' : p.1 = k'
      · simp [setk, getk, hp, hp', h]
      · simp [setk, getk, hp, hp', ih]

theorem setk_setk (st : Store) (k : String) (v w : StoreVal) :
    setk (setk st k v) k w = setk st k w := by
  induction st with
  | nil => simp [setk]
  | cons p t ih =>
    by_cases h : p.1 = k
    · simp [setk, h]
    · simp [setk, h, ih]

theorem setk_eq_self (st : Store) (k : String) (v : StoreVal)
    (h : getk st k = some v) : setk st k v = st := by
  induction st with
  | nil => simp [getk] at h
  | cons p t ih =>
    by_cases hp : p.1 = k
    · simp only [getk, hp, if_pos] at h
      have hv : p.2 = v := by injection h
      obtain ⟨a, b⟩ := p
      simp only at hp hv
      subst hp; subst hv
      simp [setk]
    · simp only [getk, hp, if_neg, if_false] at h
      simp [setk, hp, ih h]

theorem getk_delk_ne (st : Store) (k k' : String) (h : k' ≠ k) :
    getk (delk st k) k' = getk st k' := by
  induction st with
  | nil => simp [delk]
  | cons p t ih =>
    have h2 : ¬ (k = k') := fun hh => h hh.symm
    by_cases hp : p.1 = k
    · have hp2 : ¬ (p.1 = k') := by rw [hp]; exact h2
      simp [delk, getk, hp, hp2, h2, ih]
    · by_cases hp' : p.1 = k'
      · simp [delk, getk, hp, hp', h]
      · simp [delk, getk, hp, hp', ih]

theorem intValsFS_setk_sval (st : Store) (k : String) (s : Finset Int)
    (h : ∀ p ∈ st, p.1 = k → ∃ s0, p.2 = StoreVal.sval s0) :
    intValsFS (setk st k (StoreVal.sval s)) = intValsFS st := by
  induction st with
  | nil => simp [setk, intValsFS]
  | cons p t ih =>
    by_cases hp : p.1 = k
    · obtain ⟨s0, hs0⟩ := h p (List.mem_cons_self p t) hp
      simp [setk, intValsFS, hp, hs0]
    · have ht : ∀ q ∈ t, q.1 = k → ∃ s0, q.2 = StoreVal.sval s0 :=
        fun q hq => h q (List.mem_cons_of_mem p hq)
      simp only [setk, hp, if_neg, if_false]
      simp only [intValsFS, List.filterMap_cons] at ih ⊢
      cases hm : (match p.2 with
        | StoreVal.ival n => some n
        | StoreVal.sval _ => none : Option Int) with
      | none => simpa [hm] using ih ht
      | some n =>
        simp only [hm]
        have := ih ht
        simp only [List.toFinset_cons, this]

theorem pairMapOf_setk_reserved (st : Store) (v : StoreVal) :
    pairMapOf (setk st "front_groups" v) = pairMapOf st := by
  induction st with
  | nil => simp [setk, pairMapOf, delk]
  | cons p t ih =>
    by_cases hp : p.1 = "front_groups"
    · simp [setk, pairMapOf, delk, hp]
    · simp only [setk, hp, if_neg, if_false]
      simp only [pairMapOf, delk, hp, if_neg, if_false] at ih ⊢
      simp [ih]

theorem getFG_botInit (st : Store) : getFG (botInit st) = intValsFS st := by
  unfold getFG botInit
  rw [getk_setk_self]

theorem intValsFS_eq_mappingFronts (st : Store) (hwf : StoreWF st) :
    intValsFS st = mappingFronts st := by
  induction st with
  | nil => simp [intValsFS, mappingFronts, pairMapOf, delk]
  | cons p t ih =>
    have hp := hwf p (List.mem_cons_self p t)
    have ht : StoreWF t := fun q hq => hwf q (List.mem_cons_of_mem p hq)
    by_cases hk : p.1 = "front_groups"
    · obtain ⟨s, hs⟩ : ∃ s, p.2 = StoreVal.sval s := by simpa [hk] using hp
      simpa [intValsFS, mappingFronts, pairMapOf, delk, hk, hs] using ih ht
    · obtain ⟨n, hn⟩ : ∃ n, p.2 = StoreVal.ival n := by simpa [hk] using hp
      have hih := ih ht
      simp only [intValsFS, mappingFronts, pairMapOf] at hih
      simp [intValsFS, mappingFronts, pairMapOf, delk, hk, hn, hih]


theorem intValsFS_setk_sval_first (st : Store) (k : String)
    (s s0 : Finset Int) (h : getk st k = some (StoreVal.sval s0)) :
    intValsFS (setk st k (StoreVal.sval s)) = intValsFS st := by
  induction st with
  | nil => simp [getk] at h
  | cons p t ih =>
    by_cases hp : p.1 = k
    · simp only [getk, hp, if_pos] at h
      have hv : p.2 = StoreVal.sval s0 := by injection h
      simp [setk, intValsFS, hp, hv]
    · simp only [getk, hp, if_neg, if_false] at h
      simp only [setk, hp, if_neg, if_false]
      simp only [intValsFS, List.filterMap_cons] at ih ⊢
      cases hm : (match p.2 with
        | StoreVal.ival n => some n
        | StoreVal.sval _ => none : Option Int) with
      | none => simpa [hm] using ih h
      | some n =>
        simp only [hm, List.toFinset_cons]
        rw [show (List.filterMap (fun p => match p.2 with
          | StoreVal.ival n => some n
          | StoreVal.sval _ => none) (setk t k (StoreVal.sval s))).toFinset
            = (List.filterMap (fun p => match p.2 with
          | StoreVal.ival n => some n
          | StoreVal.sval _ => none) t).toFinset from ih h]

/-! ### Claim C2: the `front_groups` invariant -/

/-- C2, counterexample: starting from a freshly initialised empty
store, committing the pairing `(group 1, front 2)` leaves the persisted
`front_groups` set empty — it is recomputed from the store as it stood
BEFORE the insertion — so `is_known_front 2` is `false` immediately
after `pair` succeeds, and the persisted set differs from the set of
values of the mapping. -/
theorem c2_counterexample :
    is_known_front (pair (botInit []) 1 2) 2 = false ∧
    getFG (pair (botInit []) 1 2) ≠ mappingFronts (pair (botInit []) 1 2) := by
  constructor
  · rfl
  · decide

/-- C2, amended: the persisted `front_groups` set is recomputed only at
construction and at pairing commit; at a commit it is recomputed from
the store BEFORE the new pairing is inserted, so after
`pair(group_id, front_id)` it equals the integer-value set of the prior
store (hence `is_known_front front_id` holds only if `front_id` was
already some pairing's value), and un-pairing leaves it unchanged. -/
theorem c2_front_groups_lag (st : Store) (g f c : Int)
    (hg : toString g ≠ "front_groups") (hc : toString c ≠ "front_groups") :
    getFG (pair st g f) = intValsFS st ∧
    getk (pair st g f) (toString g) = some (StoreVal.ival f) ∧
    (is_known_front (pair st g f) f = true ↔ f ∈ intValsFS st) ∧
    getFG (unpair st c) = getFG st ∧
    getFG (botInit st) = intValsFS st := by
  have hfg : getFG (pair st g f) = intValsFS st := by
    unfold getFG pair
    rw [getk_setk_ne _ _ _ _ (fun hh => hg hh.symm), getk_setk_self]
  refine ⟨hfg, ?_, ?_, ?_, getFG_botInit st⟩
  · unfold pair
    exact getk_setk_self _ _ _
  · simp [is_known_front, hfg]
  · unfold getFG unpair
    rw [getk_delk_ne _ _ _ (fun hh => hc hh.symm)]

/-- C2 witness: the amended statement at the empty store, pairing
group 1 to front 2 and un-pairing chat 3. -/
theorem c2_front_groups_lag_witness :
    toString (1 : Int) ≠ "front_groups" ∧ toString (3 : Int) ≠ "front_groups" ∧
    (getFG (pair [] 1 2) = intValsFS [] ∧
     getk (pair [] 1 2) (toString (1 : Int)) = some (StoreVal.ival 2) ∧
     (is_known_front (pair [] 1 2) 2 = true ↔ (2 : Int) ∈ intValsFS []) ∧
     getFG (unpair [] 3) = getFG [] ∧
     getFG (botInit []) = intValsFS []) :=
  ⟨by decide, by decide, c2_front_groups_lag [] 1 2 3 (by decide) (by decide)⟩

/-! ### Claim C3: idempotence of re-pairing -/

/-- C3, counterexample: from a freshly initialised empty store, pairing
`(1, 2)` twice does NOT produce the registry state of pairing once —
the persisted `front_groups` value differs (`{2}` versus `∅`), because
the commit recomputes it from the pre-insertion store. -/
theorem c3_counterexample :
    getk (pair (pair (botInit []) 1 2) 1 2) "front_groups" ≠
      getk (pair (botInit []) 1 2) "front_groups" := by
  decide

/-- C3, amended: re-pairing the same `(group_id, front_id)` twice
produces the same pairing MAPPING as doing it once (only the persisted
`front_groups` value can differ, absorbing the one-commit lag), and the
registry state is idempotent from the second application onward: a
third commit produces state identical to the second. -/
theorem pair_collapse (X : Store) (g f : Int)
    (hg : toString g ≠ "front_groups")
    (h : getk X (toString g) = some (StoreVal.ival f)) :
    pair X g f = setk X "front_groups" (StoreVal.sval (intValsFS X)) := by
  unfold pair
  apply setk_eq_self
  rw [getk_setk_ne _ _ _ _ hg]
  exact h

theorem c3_repair_idempotent (st : Store) (g f : Int)
    (hg : toString g ≠ "front_groups") :
    pairMapOf (pair (pair st g f) g f) = pairMapOf (pair st g f) ∧
    pair (pair (pair st g f) g f) g f = pair (pair st g f) g f := by
  have hgs : "front_groups" ≠ toString g := fun hh => hg hh.symm
  have h1G : getk (pair st g f) (toString g) = some (StoreVal.ival f) := by
    unfold pair; exact getk_setk_self _ _ _
  have h1K : getk (pair st g f) "front_groups"
      = some (StoreVal.sval (intValsFS st)) := by
    unfold pair
    rw [getk_setk_ne _ _ _ _ hgs, getk_setk_self]
  -- the second commit collapses to a rewrite of the reserved key only
  have h2coll : pair (pair st g f) g f
      = setk (pair st g f) "front_groups"
          (StoreVal.sval (intValsFS (pair st g f))) :=
    pair_collapse _ _ _ hg h1G
  constructor
  · rw [h2coll]
    exact pairMapOf_setk_reserved _ _
  · have h2G : getk (pair (pair st g f) g f) (toString g)
        = some (StoreVal.ival f) := by
      rw [h2coll, getk_setk_ne _ _ _ _ hg]
      exact h1G
    have h2vals : intValsFS (pair (pair st g f) g f)
        = intValsFS (pair st g f) := by
      rw [h2coll]
      exact intValsFS_setk_sval_first _ _ _ _ h1K
    have h3coll : pair (pair (pair st g f) g f) g f
        = setk (pair (pair st g f) g f) "front_groups"
            (StoreVal.sval (intValsFS (pair (pair st g f) g f))) :=
      pair_collapse _ _ _ hg h2G
    rw [h3coll, h2vals, h2coll, setk_setk]

/-- C3 witness: the amended statement on a store already holding a
pairing `(5 ↦ 7)`. -/
theorem c3_repair_idempotent_witness :
    toString (1 : Int) ≠ "front_groups" ∧
    (pairMapOf (pair (pair [(toString (5 : Int), StoreVal.ival 7)] 1 2) 1 2) =
       pairMapOf (pair [(toString (5 : Int), StoreVal.ival 7)] 1 2) ∧
     pair (pair (pair [(toString (5 : Int), StoreVal.ival 7)] 1 2) 1 2) 1 2 =
       pair (pair [(toString (5 : Int), StoreVal.ival 7)] 1 2) 1 2) :=
  ⟨by decide, c3_repair_idempotent [(toString (5 : Int), StoreVal.ival 7)] 1 2 (by decide)⟩

/-! ### Claim C10: `front_groups` rebuilt at construction -/

/-- C10: at construction the bot recomputes `front_groups` as the set
of all integer values in the persistent store and persists it under the
reserved key; for a well-formed store this equals the value set of the
pairing mapping, regardless of whatever `front_groups` value a previous
run persisted. -/
theorem c10_init_recomputes (st : Store) (s : Finset Int) (hwf : StoreWF st) :
    getFG (botInit st) = mappingFronts st ∧
    getFG (botInit (setk st "front_groups" (StoreVal.sval s))) = mappingFronts st := by
  constructor
  · rw [getFG_botInit]
    exact intValsFS_eq_mappingFronts st hwf
  · rw [getFG_botInit]
    rw [intValsFS_setk_sval st "front_groups" s]
    · exact intValsFS_eq_mappingFronts st hwf
    · intro p hp hk
      have := hwf p hp
      rw [if_pos hk] at this
      exact this

/-- C10 witness: a store holding one pairing `("5" ↦ 7)`, with an
arbitrary stale persisted set `{42}`. -/
theorem c10_init_recomputes_witness :
    StoreWF [(("5" : String), StoreVal.ival 7)] ∧
    (getFG (botInit [(("5" : String), StoreVal.ival 7)]) =
       mappingFronts [(("5" : String), StoreVal.ival 7)] ∧
     getFG (botInit (setk [(("5" : String), StoreVal.ival 7)] "front_groups"
         (StoreVal.sval {42}))) =
       mappingFronts [(("5" : String), StoreVal.ival 7)]) := by
  have hwf : StoreWF [(("5" : String), StoreVal.ival 7)] := by
    intro p hp
    simp only [List.mem_singleton] at hp
    subst hp
    simp
  exact ⟨hwf, c10_init_recomputes _ {42} hwf⟩


/-! ### Time-bounded key registry (`ExpiringDict`)

Modelled from the spec: the class `ExpiringDict` is imported from
`.lib.expiringdict`, whose source is not part of this repository.
Spec §4.1: `set` stamps expiry `now + TTL` and evicts
oldest-inserted-first entries beyond `maxsize`; `expire` removes all
entries whose expiry has passed; `get`/`delete`/`pop`/`contains` are
plain map operations.  Keys are `(user_id, chat_id)` pairs. -/
structure ExpiringDict (α : Type) where
  ttl : Int
  maxsize : Nat
  entries : List ((Int × Int) × Int × α)
  deriving DecidableEq

def ExpiringDict.expire {α : Type} (d : ExpiringDict α) (now : Int) :
    ExpiringDict α :=
  { d with entries := d.entries.filter (fun e => now < e.2.1) }

def ExpiringDict.get {α : Type} (d : ExpiringDict α) (k : Int × Int) :
    Option α :=
  (d.entries.find? (fun e => e.1 = k)).map (fun e => e.2.2)

def ExpiringDict.contains {α : Type} (d : ExpiringDict α) (k : Int × Int) :
    Bool :=
  d.entries.any (fun e => e.1 = k)

def ExpiringDict.del {α : Type} (d : ExpiringDict α) (k : Int × Int) :
    ExpiringDict α :=
  { d with entries := d.entries.filter (fun e => e.1 ≠ k) }

def ExpiringDict.set {α : Type} (d : ExpiringDict α) (k : Int × Int)
    (v : α) (now : Int) : ExpiringDict α :=
  let es := d.entries.filter (fun e => e.1 ≠ k) ++ [(k, (now + d.ttl, v))]
  { d with entries := es.drop (es.length - d.maxsize) }

def ExpiringDict.pop {α : Type} (d : ExpiringDict α) (k : Int × Int) :
    Option α × ExpiringDict α :=
  (d.get k, d.del k)

def ExpiringDict.updateExisting {α : Type} (d : ExpiringDict α)
    (k : Int × Int) (f : α → α) : ExpiringDict α :=
  { d with entries := d.entries.map (fun e =>
      if e.1 = k then (e.1, e.2.1, f e.2.2) else e) }

theorem ExpiringDict.get_set_self {α : Type} (d : ExpiringDict α)
    (k : Int × Int) (v : α) (now : Int) (hm : 1 ≤ d.maxsize) :
    (d.set k v now).get k = some v := by
  obtain ⟨ttl, ms, es⟩ := d
  simp only [ExpiringDict.set, ExpiringDict.get] at *
  have hle : (es.filter (fun e => e.1 ≠ k) ++ [(k, (now + ttl, v))]).length - ms
      ≤ (es.filter (fun e => e.1 ≠ k)).length := by
    simp only [List.length_append, List.length_singleton]
    omega
  rw [List.drop_append_of_le_length hle]
  have hnone : ((es.filter (fun e => e.1 ≠ k)).drop
      ((es.filter (fun e => e.1 ≠ k) ++ [(k, (now + ttl, v))]).length - ms)).find?
      (fun e => e.1 = k) = none := by
    rw [List.find?_eq_none]
    intro x hx
    have hx2 := List.drop_subset _ _ hx
    have := List.of_mem_filter hx2
    simpa using this
  rw [List.find?_append, hnone]
  simp [List.find?]

theorem ExpiringDict.contains_set_self {α : Type} (d : ExpiringDict α)
    (k : Int × Int) (v : α) (now : Int) (hm : 1 ≤ d.maxsize) :
    (d.set k v now).contains k = true := by
  have h := ExpiringDict.get_set_self d k v now hm
  unfold ExpiringDict.get at h
  unfold ExpiringDict.set at h ⊢
  unfold ExpiringDict.contains
  rw [List.any_eq_true]
  rcases ho : ((d.entries.filter (fun e => e.1 ≠ k)
      ++ [(k, (now + d.ttl, v))]).drop
      ((d.entries.filter (fun e => e.1 ≠ k)
        ++ [(k, (now + d.ttl, v))]).length - d.maxsize)).find?
      (fun e => e.1 = k) with _ | e
  · rw [ho] at h; simp at h
  · have hmem := List.mem_of_find?_eq_some ho
    have hk := List.find?_some ho
    exact ⟨e, hmem, hk⟩

theorem ExpiringDict.get_del_self {α : Type} (d : ExpiringDict α)
    (k : Int × Int) : (d.del k).get k = none := by
  obtain ⟨ttl, ms, es⟩ := d
  simp only [ExpiringDict.del, ExpiringDict.get]
  have hnone : (es.filter (fun e => e.1 ≠ k)).find? (fun e => e.1 = k) = none := by
    rw [List.find?_eq_none]
    intro x hx
    have := List.of_mem_filter hx
    simpa using this
  rw [hnone]
  rfl

theorem ExpiringDict.get_updateExisting_self {α : Type}
    (d : ExpiringDict α) (k : Int × Int) (f : α → α) :
    (d.updateExisting k f).get k = (d.get k).map f := by
  obtain ⟨ttl, ms, es⟩ := d
  simp only [ExpiringDict.updateExisting, ExpiringDict.get]
  induction es with
  | nil => simp
  | cons e t ih =>
    by_cases he : e.1 = k
    · simp [List.find?, he]
    · simp only [List.map_cons, if_neg he]
      rw [List.find?_cons_of_neg, List.find?_cons_of_neg]
      · exact ih
      · simpa using he
      · simpa using he


/-! ### Join-event moderation engine (`SpamFightBot._on_message_real`) -/

/-- Membership statuses counted as "is a member"
(`['member', 'creator', 'administrator']`). -/
def memberStatuses : List String := ["member", "creator", "administrator"]

/-- Outcome of `get_chat_member_retrying(bot, front_id, u.id)` as seen
by `_on_message_real`: a status, a `TelegramForbiddenError`, another
`TelegramAPIError`, or a `TelegramNetworkError` surviving all retries. -/
inductive QueryRes : Type
  | ok (status : String)
  | forbidden
  | apiError
  | network
  deriving DecidableEq

/-- Oracle for the two external membership queries issued by the
moderation engine. `frontQuery front_id user_id` is the retried query
against the front chat; `groupStatus group_id user_id` is the plain
`bot.get_chat_member(group_id, from_user.id)` status used on the
third-party-invite path. -/
structure Env : Type where
  frontQuery : Int → Int → QueryRes
  groupStatus : Int → Int → String

/-- A joining user as carried in `msg.new_chat_members`. -/
structure TUser : Type where
  id : Int
  isbot : Bool
  deriving DecidableEq

/-- The fields of an inbound message event that
`_on_message_real` inspects (`msg.from_user.id`, `msg.chat.id`,
`msg.message_id`, `msg.left_chat_member`, `msg.new_chat_members`). -/
structure Msg : Type where
  from_id : Int
  chat_id : Int
  message_id : Int
  left_member : Option Int
  new_chat_members : List TUser
  deriving DecidableEq

/-- Outbound chat actions issued by the engine. The join-notification
delete in the ban branch is wrapped in the source by
`try/except TelegramNotFound: pass`, so an already-deleted message is
tolerated; deletion effects here record the attempt. -/
inductive Effect : Type
  | deleteMessage (chatId msgId : Int)
  | banChatMember (chatId userId untilDate : Int)
  | leaveChat (chatId : Int)
  deriving DecidableEq

/-- How the processing of one message ended: normal completion, the
`return` on `TelegramForbiddenError` for the front query, or a
`TelegramNetworkError` propagating out of `_on_message_real` (caught
and merely logged by `on_message`). -/
inductive PassOutcome : Type
  | done
  | forbiddenAbort
  | networkAbort
  deriving DecidableEq

/-- The mutable state of one `SpamFightBot` instance. -/
structure BotState : Type where
  store : Store
  newuser_msgs : ExpiringDict (List Int)
  just_banned : ExpiringDict Bool
  bot_id : Int
  deriving DecidableEq

/-- `SpamFightBot.__init__`: front_groups rebuilt, fresh registries
(`ExpiringDict(300, maxsize=100)` and `ExpiringDict(50, maxsize=100)`). -/
def initialBot (st : Store) (bid : Int) : BotState :=
  ⟨botInit st, ⟨300, 100, []⟩, ⟨50, 100, []⟩, bid⟩

/-- `self.store.get(str(group_id))`. -/
def getPair (st : Store) (gid : Int) : Option Int :=
  match getk st (toString gid) with
  | some (StoreVal.ival f) => some f
  | _ => none

/-- Result of processing a single entry of `new_chat_members`:
updated state, effects emitted by this iteration, and whether the
whole message's processing stops here. -/
structure StepRes : Type where
  st : BotState
  effs : List Effect
  abort : Option PassOutcome
  deriving DecidableEq

/-- Result of a whole `_on_message_real` pass. -/
structure PassRes : Type where
  st : BotState
  effs : List Effect
  outcome : PassOutcome
  deriving DecidableEq

/-- The accept/remove decision shared by both join paths
(`if is_member: ... else: ...`, source lines 195-225). -/
def decideMember (msg : Msg) (now : Int) (u : TUser) (isMember : Bool)
    (st : BotState) : StepRes :=
  let key := (msg.from_id, msg.chat_id)
  if isMember then
    ⟨{ st with newuser_msgs := st.newuser_msgs.del key }, [], none⟩
  else
    let st2 := { st with just_banned := st.just_banned.set key true now }
    let popped := st2.newuser_msgs.pop key
    ⟨{ st2 with newuser_msgs := popped.2 },
      [Effect.banChatMember msg.chat_id u.id (now + 60),
       Effect.deleteMessage msg.chat_id msg.message_id]
      ++ (match popped.1 with
          | some l => l.map (fun mid => Effect.deleteMessage msg.chat_id mid)
          | none => []),
      none⟩

/-- One iteration of `for u in msg.new_chat_members` (source lines
155-225).  `interim` lists the message ids that concurrently
dispatched passes append to the joining user's pending entry while the
front-membership query is awaited (the aiogram dispatcher handles
updates concurrently; with no interleaving it is `[]`). -/
def processMember (env : Env) (msg : Msg) (now : Int) (interim : List Int)
    (st : BotState) (u : TUser) : StepRes :=
  if u.isbot then ⟨st, [], none⟩
  else
    let group_id := msg.chat_id
    match getPair st.store group_id with
    | none =>
      if is_known_front st.store group_id then ⟨st, [], none⟩
      else ⟨st, [Effect.leaveChat group_id], none⟩
    | some front_id =>
      let key := (msg.from_id, group_id)
      if msg.from_id ≠ u.id then
        decideMember msg now u
          (decide (env.groupStatus group_id msg.from_id ∈ memberStatuses)) st
      else
        let num2 := (st.newuser_msgs.set key [] now).updateExisting key (fun l => l ++ interim)
        let st1 := { st with newuser_msgs := num2 }
        match env.frontQuery front_id u.id with
        | QueryRes.forbidden => ⟨st1, [], some PassOutcome.forbiddenAbort⟩
        | QueryRes.network => ⟨st1, [], some PassOutcome.networkAbort⟩
        | QueryRes.ok s =>
          decideMember msg now u (decide (s ∈ memberStatuses)) st1
        | QueryRes.apiError => decideMember msg now u true st1

/-- The member loop, stopping at the first aborting iteration. -/
def processMembers (env : Env) (msg : Msg) (now : Int) (interim : List Int) :
    BotState → List TUser → PassRes
  | st, [] => ⟨st, [], PassOutcome.done⟩
  | st, u :: rest =>
    let r := processMember env msg now interim st u
    match r.abort with
    | some o => ⟨r.st, r.effs, o⟩
    | none =>
      let r2 := processMembers env msg now interim r.st rest
      ⟨r2.st, r.effs ++ r2.effs, r2.outcome⟩

/-- `SpamFightBot._on_message_real`: the just-banned sweep and early
delete, the pending-message sweep and append, the left-member
handling, then the member loop. -/
def onMessageReal (env : Env) (st : BotState) (msg : Msg) (now : Int)
    (interim : List Int) : PassRes :=
  let jb := st.just_banned.expire now
  let stA := { st with just_banned := jb }
  let key := (msg.from_id, msg.chat_id)
  if jb.contains key then
    ⟨stA, [Effect.deleteMessage msg.chat_id msg.message_id], PassOutcome.done⟩
  else
    let num0 := stA.newuser_msgs.expire now
    let num1 := if num0.contains key then
        num0.updateExisting key (fun l => l ++ [msg.message_id])
      else num0
    let stB := { stA with newuser_msgs := num1 }
    let stepLeft : BotState × List Effect :=
      match msg.left_member with
      | some lid =>
        if lid = stB.bot_id then
          ({ stB with store := delk stB.store (toString msg.chat_id) }, [])
        else if msg.from_id = stB.bot_id then
          (stB, [Effect.deleteMessage msg.chat_id msg.message_id])
        else (stB, [])
      | none => (stB, [])
    if msg.new_chat_members.isEmpty then
      ⟨stepLeft.1, stepLeft.2, PassOutcome.done⟩
    else
      let r := processMembers env msg now interim stepLeft.1 msg.new_chat_members
      ⟨r.st, stepLeft.2 ++ r.effs, r.outcome⟩



/-! ### Engine helper lemmas -/

theorem ExpiringDict.set_updateExisting_self {α : Type}
    (d : ExpiringDict α) (k : Int × Int) (f : α → α) (v : α) (now : Int) :
    (d.updateExisting k f).set k v now = d.set k v now := by
  obtain ⟨ttl, ms, es⟩ := d
  simp only [ExpiringDict.set, ExpiringDict.updateExisting, ne_eq, decide_not]
  have hfil : (es.map (fun e => if e.1 = k then (e.1, e.2.1, f e.2.2) else e)).filter
      (fun e => !decide (e.1 = k)) = es.filter (fun e => !decide (e.1 = k)) := by
    induction es with
    | nil => simp
    | cons e t ih =>
      by_cases he : e.1 = k
      · simp [List.filter_cons, he, ih]
      · simp [List.filter_cons, he, ih]
  rw [hfil]

theorem ExpiringDict.get_eq_none_of_contains_false {α : Type}
    (d : ExpiringDict α) (k : Int × Int)
    (h : d.contains k = false) : d.get k = none := by
  unfold ExpiringDict.contains at h
  unfold ExpiringDict.get
  have hf : d.entries.find? (fun e => e.1 = k) = none := by
    rw [List.find?_eq_none]
    intro x hx hpx
    rw [List.any_eq_false] at h
    exact absurd hpx (h x hx)
  rw [hf]
  rfl

theorem decideMember_store (msg : Msg) (now : Int) (u : TUser) (b : Bool)
    (st : BotState) : (decideMember msg now u b st).st.store = st.store := by
  unfold decideMember
  cases b <;> simp

theorem decideMember_abort (msg : Msg) (now : Int) (u : TUser) (b : Bool)
    (st : BotState) : (decideMember msg now u b st).abort = none := by
  unfold decideMember
  cases b <;> simp

theorem processMember_store (env : Env) (msg : Msg) (now : Int)
    (interim : List Int) (st : BotState) (u : TUser) :
    (processMember env msg now interim st u).st.store = st.store := by
  unfold processMember
  by_cases hb : u.isbot
  · simp [hb]
  · simp only [hb, Bool.false_eq_true, if_false]
    cases hp : getPair st.store msg.chat_id with
    | none =>
      by_cases hk : is_known_front st.store msg.chat_id <;> simp [hk]
    | some fid =>
      by_cases hs : msg.from_id = u.id
      · simp only [hs, ne_eq, not_true_eq_false, if_false]
        cases hq : env.frontQuery fid u.id <;>
          simp [hq, decideMember_store]
      · simp [hs, decideMember_store]

theorem processMembers_store (env : Env) (msg : Msg) (now : Int)
    (interim : List Int) (st : BotState) (l : List TUser) :
    (processMembers env msg now interim st l).st.store = st.store := by
  induction l generalizing st with
  | nil => rfl
  | cons u rest ih =>
    cases ha : (processMember env msg now interim st u).abort with
    | some o =>
      simp only [processMembers, ha]
      exact processMember_store env msg now interim st u
    | none =>
      simp only [processMembers, ha]
      rw [ih ((processMember env msg now interim st u).st)]
      exact processMember_store env msg now interim st u

theorem processMember_abort_ne_done (env : Env) (msg : Msg) (now : Int)
    (interim : List Int) (st : BotState) (u : TUser) :
    (processMember env msg now interim st u).abort ≠ some PassOutcome.done := by
  unfold processMember
  by_cases hb : u.isbot
  · simp [hb]
  · simp only [hb, Bool.false_eq_true, if_false]
    cases hp : getPair st.store msg.chat_id with
    | none =>
      by_cases hk : is_known_front st.store msg.chat_id <;> simp [hk]
    | some fid =>
      by_cases hs : msg.from_id = u.id
      · simp only [hs, ne_eq, not_true_eq_false, if_false]
        cases hq : env.frontQuery fid u.id <;>
          simp [hq, decideMember_abort]
      · simp [hs, decideMember_abort]

theorem processMembers_append_done (env : Env) (msg : Msg) (now : Int)
    (interim : List Int) (st : BotState) (l1 l2 : List TUser)
    (h : (processMembers env msg now interim st l1).outcome = PassOutcome.done) :
    processMembers env msg now interim st (l1 ++ l2)
      = ⟨(processMembers env msg now interim
            (processMembers env msg now interim st l1).st l2).st,
         (processMembers env msg now interim st l1).effs
           ++ (processMembers env msg now interim
                 (processMembers env msg now interim st l1).st l2).effs,
         (processMembers env msg now interim
            (processMembers env msg now interim st l1).st l2).outcome⟩ := by
  induction l1 generalizing st with
  | nil => simp [processMembers]
  | cons u rest ih =>
    rw [List.cons_append]
    cases ha : (processMember env msg now interim st u).abort with
    | some o =>
      exfalso
      have h2 := h
      simp only [processMembers, ha] at h2
      exact processMember_abort_ne_done env msg now interim st u (by rw [ha, h2])
    | none =>
      have h2 : (processMembers env msg now interim
          (processMember env msg now interim st u).st rest).outcome
          = PassOutcome.done := by
        have h3 := h
        simp only [processMembers, ha] at h3
        exact h3
      simp only [processMembers, ha]
      rw [ih _ h2]
      simp [List.append_assoc]


theorem ExpiringDict.maxsize_expire {α : Type} (d : ExpiringDict α)
    (now : Int) : (d.expire now).maxsize = d.maxsize := rfl

theorem ExpiringDict.maxsize_updateExisting {α : Type} (d : ExpiringDict α)
    (k : Int × Int) (f : α → α) : (d.updateExisting k f).maxsize = d.maxsize := rfl

/-- Core computation: a single-member self-join whose front query
answers a non-member status takes the removal branch: mark just-banned,
ban for 60s, delete the join message, delete every id in the pending
buffer (at this point the reset entry plus the interleaved appends),
drop the tracking entry. -/
theorem selfjoin_ban_core (env : Env) (store : Store)
    (numd : ExpiringDict (List Int)) (jbd : ExpiringDict Bool) (bid : Int)
    (u : TUser) (chatId msgId now : Int) (interim : List Int)
    (front_id : Int) (s : String)
    (hbot : u.isbot = false)
    (hpair : getPair store chatId = some front_id)
    (hq : env.frontQuery front_id u.id = QueryRes.ok s)
    (hs : s ∉ memberStatuses)
    (hmaxn : 1 ≤ numd.maxsize) :
    processMembers env ⟨u.id, chatId, msgId, none, [u]⟩ now interim
        ⟨store, numd, jbd, bid⟩ [u]
      = ⟨⟨store,
           (((numd.set (u.id, chatId) [] now).updateExisting (u.id, chatId)
               (fun l => l ++ interim)).pop (u.id, chatId)).2,
           jbd.set (u.id, chatId) true now, bid⟩,
         [Effect.banChatMember chatId u.id (now + 60),
          Effect.deleteMessage chatId msgId]
          ++ interim.map (fun mid => Effect.deleteMessage chatId mid),
         PassOutcome.done⟩ := by
  have hdec : decide (s ∈ memberStatuses) = false := decide_eq_false hs
  have hget : (((numd.set (u.id, chatId) [] now).updateExisting (u.id, chatId)
      (fun l => l ++ interim)).pop (u.id, chatId)).1 = some interim := by
    show ((numd.set (u.id, chatId) [] now).updateExisting (u.id, chatId)
      (fun l => l ++ interim)).get (u.id, chatId) = some interim
    rw [ExpiringDict.get_updateExisting_self,
      ExpiringDict.get_set_self _ _ _ _ hmaxn]
    rfl
  simp only [processMembers, processMember, hbot, Bool.false_eq_true, if_false,
    hpair, ne_eq, not_true_eq_false, hq, decideMember, hdec]
  simp [hget]

/-- Core computation: a single-member self-join whose front query
answers a member status takes the accept branch: drop the tracking
entry, no effects. -/
theorem selfjoin_accept_core (env : Env) (store : Store)
    (numd : ExpiringDict (List Int)) (jbd : ExpiringDict Bool) (bid : Int)
    (u : TUser) (chatId msgId now : Int) (interim : List Int)
    (front_id : Int) (s : String)
    (hbot : u.isbot = false)
    (hpair : getPair store chatId = some front_id)
    (hq : env.frontQuery front_id u.id = QueryRes.ok s)
    (hs : s ∈ memberStatuses) :
    processMembers env ⟨u.id, chatId, msgId, none, [u]⟩ now interim
        ⟨store, numd, jbd, bid⟩ [u]
      = ⟨⟨store,
           ((numd.set (u.id, chatId) [] now).updateExisting (u.id, chatId)
               (fun l => l ++ interim)).del (u.id, chatId),
           jbd, bid⟩,
         [], PassOutcome.done⟩ := by
  have hdec : decide (s ∈ memberStatuses) = true := decide_eq_true hs
  simp only [processMembers, processMember, hbot, Bool.false_eq_true, if_false,
    hpair, ne_eq, not_true_eq_false, hq, decideMember, hdec]
  simp


/-- For a pure join message (no left member, a single joining user)
whose sender is not just-banned, the pass reduces to the member loop
run on the post-sweep state. -/
theorem onMessageReal_join_single (env : Env) (st : BotState)
    (now : Int) (interim : List Int) (fid0 cid mid : Int) (u : TUser)
    (hjb : (st.just_banned.expire now).contains (fid0, cid) = false) :
    onMessageReal env st ⟨fid0, cid, mid, none, [u]⟩ now interim
      = ⟨(processMembers env ⟨fid0, cid, mid, none, [u]⟩ now interim
            ⟨st.store,
             (if (st.newuser_msgs.expire now).contains (fid0, cid) = true
               then (st.newuser_msgs.expire now).updateExisting (fid0, cid)
                 (fun l => l ++ [mid])
               else st.newuser_msgs.expire now),
             st.just_banned.expire now, st.bot_id⟩ [u]).st,
         (processMembers env ⟨fid0, cid, mid, none, [u]⟩ now interim
            ⟨st.store,
             (if (st.newuser_msgs.expire now).contains (fid0, cid) = true
               then (st.newuser_msgs.expire now).updateExisting (fid0, cid)
                 (fun l => l ++ [mid])
               else st.newuser_msgs.expire now),
             st.just_banned.expire now, st.bot_id⟩ [u]).effs,
         (processMembers env ⟨fid0, cid, mid, none, [u]⟩ now interim
            ⟨st.store,
             (if (st.newuser_msgs.expire now).contains (fid0, cid) = true
               then (st.newuser_msgs.expire now).updateExisting (fid0, cid)
                 (fun l => l ++ [mid])
               else st.newuser_msgs.expire now),
             st.just_banned.expire now, st.bot_id⟩ [u]).outcome⟩ := by
  simp only [onMessageReal, hjb, Bool.false_eq_true, if_false]
  rfl

/-! ### Claim C4: self-join by a non-member is removed -/

/-- C4: for a self-join event in a paired group where the front
membership query reports a status outside member/creator/administrator,
within the same pass the engine marks `(user_id, chat_id)` in the
just-banned registry, bans the user until `now + 60`, deletes the
join-notification message (the source wraps that delete in
`try/except TelegramNotFound: pass`, so an already-deleted message
counts as success), deletes every message id held in the pending
buffer at retraction time (the entry is re-registered empty at the
start of self-join handling, then collects the ids appended while the
query is awaited — `interim`), and discards the tracking entry. -/
theorem c4_selfjoin_nonmember_banned
    (env : Env) (st : BotState) (now : Int) (interim : List Int)
    (u : TUser) (chatId msgId front_id : Int) (s : String)
    (hbot : u.isbot = false)
    (hjb : (st.just_banned.expire now).contains (u.id, chatId) = false)
    (hpair : getPair st.store chatId = some front_id)
    (hq : env.frontQuery front_id u.id = QueryRes.ok s)
    (hs : s ∉ memberStatuses)
    (hmaxb : 1 ≤ st.just_banned.maxsize)
    (hmaxn : 1 ≤ st.newuser_msgs.maxsize) :
    (onMessageReal env st ⟨u.id, chatId, msgId, none, [u]⟩ now interim).outcome
        = PassOutcome.done ∧
    (onMessageReal env st ⟨u.id, chatId, msgId, none, [u]⟩ now interim).effs
        = [Effect.banChatMember chatId u.id (now + 60),
           Effect.deleteMessage chatId msgId]
          ++ interim.map (fun mid => Effect.deleteMessage chatId mid) ∧
    ((onMessageReal env st ⟨u.id, chatId, msgId, none, [u]⟩ now
        interim).st.just_banned.contains (u.id, chatId)) = true ∧
    ((onMessageReal env st ⟨u.id, chatId, msgId, none, [u]⟩ now
        interim).st.newuser_msgs.get (u.id, chatId)) = none := by
  rw [onMessageReal_join_single env st now interim u.id chatId msgId u hjb]
  have hm1 : 1 ≤ (if (st.newuser_msgs.expire now).contains (u.id, chatId) = true
      then (st.newuser_msgs.expire now).updateExisting (u.id, chatId)
        (fun l => l ++ [msgId])
      else st.newuser_msgs.expire now).maxsize := by
    by_cases hc : (st.newuser_msgs.expire now).contains (u.id, chatId) = true
    · simpa [hc, ExpiringDict.maxsize_updateExisting,
        ExpiringDict.maxsize_expire] using hmaxn
    · simpa [hc, ExpiringDict.maxsize_expire] using hmaxn
  rw [selfjoin_ban_core env st.store _ (st.just_banned.expire now) st.bot_id
    u chatId msgId now interim front_id s hbot hpair hq hs hm1]
  refine ⟨rfl, rfl, ?_, ?_⟩
  · exact ExpiringDict.contains_set_self _ _ _ _
      (by simpa [ExpiringDict.maxsize_expire] using hmaxb)
  · exact ExpiringDict.get_del_self _ _

/-! ### Claim C5: self-join by a verified member is accepted -/

/-- C5: for a self-join event in a paired group where the front
membership query reports member/creator/administrator, the pass
completes with no effects at all (in particular no ban for that user),
and the pending-message registry holds no entry for
`(user_id, chat_id)` when processing ends. -/
theorem c5_selfjoin_member_accepted
    (env : Env) (st : BotState) (now : Int) (interim : List Int)
    (u : TUser) (chatId msgId front_id : Int) (s : String)
    (hbot : u.isbot = false)
    (hjb : (st.just_banned.expire now).contains (u.id, chatId) = false)
    (hpair : getPair st.store chatId = some front_id)
    (hq : env.frontQuery front_id u.id = QueryRes.ok s)
    (hs : s ∈ memberStatuses) :
    (onMessageReal env st ⟨u.id, chatId, msgId, none, [u]⟩ now interim).outcome
        = PassOutcome.done ∧
    (onMessageReal env st ⟨u.id, chatId, msgId, none, [u]⟩ now interim).effs
        = [] ∧
    ((onMessageReal env st ⟨u.id, chatId, msgId, none, [u]⟩ now
        interim).st.newuser_msgs.get (u.id, chatId)) = none := by
  rw [onMessageReal_join_single env st now interim u.id chatId msgId u hjb]
  rw [selfjoin_accept_core env st.store _ (st.just_banned.expire now) st.bot_id
    u chatId msgId now interim front_id s hbot hpair hq hs]
  exact ⟨rfl, rfl, ExpiringDict.get_del_self _ _⟩

/-! ### Concrete fixtures for witnesses and counterexamples -/

/-- A store pairing group 10 to front 99 (with a stale empty
`front_groups`, as right after that single `/newpair`). -/
def demoStore : Store :=
  [("10", StoreVal.ival 99), ("front_groups", StoreVal.sval ∅)]

/-- A bot state over `demoStore` with fresh registries. -/
def demoState : BotState := ⟨demoStore, ⟨300, 100, []⟩, ⟨50, 100, []⟩, 0⟩

/-- Oracle answering every front query with status `"left"`. -/
def nonmemberEnv : Env := ⟨fun _ _ => QueryRes.ok "left", fun _ _ => "left"⟩

/-- Oracle answering every query with status `"member"`. -/
def memberEnv : Env := ⟨fun _ _ => QueryRes.ok "member", fun _ _ => "member"⟩

/-- C4 witness: user 7 self-joins group 10 (front 99) with status
`"left"`, two messages interleaved during the query. -/
theorem c4_selfjoin_nonmember_banned_witness :
    ((⟨7, false⟩ : TUser).isbot = false ∧
     (demoState.just_banned.expire 1000).contains (7, 10) = false ∧
     getPair demoState.store 10 = some 99 ∧
     nonmemberEnv.frontQuery 99 7 = QueryRes.ok "left" ∧
     "left" ∉ memberStatuses ∧
     1 ≤ demoState.just_banned.maxsize ∧
     1 ≤ demoState.newuser_msgs.maxsize) ∧
    ((onMessageReal nonmemberEnv demoState ⟨7, 10, 777, none, [⟨7, false⟩]⟩
        1000 [101, 102]).outcome = PassOutcome.done ∧
     (onMessageReal nonmemberEnv demoState ⟨7, 10, 777, none, [⟨7, false⟩]⟩
        1000 [101, 102]).effs
       = [Effect.banChatMember 10 7 (1000 + 60),
          Effect.deleteMessage 10 777]
         ++ [101, 102].map (fun mid => Effect.deleteMessage 10 mid) ∧
     ((onMessageReal nonmemberEnv demoState ⟨7, 10, 777, none, [⟨7, false⟩]⟩
        1000 [101, 102]).st.just_banned.contains (7, 10)) = true ∧
     ((onMessageReal nonmemberEnv demoState ⟨7, 10, 777, none, [⟨7, false⟩]⟩
        1000 [101, 102]).st.newuser_msgs.get (7, 10)) = none) :=
  ⟨⟨rfl, by decide, by decide, rfl, by decide, by decide, by decide⟩,
   c4_selfjoin_nonmember_banned nonmemberEnv demoState 1000 [101, 102]
     ⟨7, false⟩ 10 777 99 "left" rfl (by decide) (by decide) rfl
     (by decide) (by decide) (by decide)⟩

/-- C5 witness: user 7 self-joins group 10 (front 99) with status
`"member"`. -/
theorem c5_selfjoin_member_accepted_witness :
    ((⟨7, false⟩ : TUser).isbot = false ∧
     (demoState.just_banned.expire 1000).contains (7, 10) = false ∧
     getPair demoState.store 10 = some 99 ∧
     memberEnv.frontQuery 99 7 = QueryRes.ok "member" ∧
     "member" ∈ memberStatuses) ∧
    ((onMessageReal memberEnv demoState ⟨7, 10, 777, none, [⟨7, false⟩]⟩
        1000 []).outcome = PassOutcome.done ∧
     (onMessageReal memberEnv demoState ⟨7, 10, 777, none, [⟨7, false⟩]⟩
        1000 []).effs = [] ∧
     ((onMessageReal memberEnv demoState ⟨7, 10, 777, none, [⟨7, false⟩]⟩
        1000 []).st.newuser_msgs.get (7, 10)) = none) :=
  ⟨⟨rfl, by decide, by decide, rfl, by decide⟩,
   c5_selfjoin_member_accepted memberEnv demoState 1000 []
     ⟨7, false⟩ 10 777 99 "member" rfl (by decide) (by decide) rfl (by decide)⟩


/-- Core computation of the third-party-invite branch: the inviter's
status in the GROUP is queried, and the shared accept/remove decision
is applied to the INVITED user based on that result. -/
theorem invite_core (env : Env) (store : Store)
    (numd : ExpiringDict (List Int)) (jbd : ExpiringDict Bool) (bid : Int)
    (u : TUser) (fid0 chatId msgId now : Int) (interim : List Int)
    (front_id : Int)
    (hbot : u.isbot = false)
    (hpair : getPair store chatId = some front_id)
    (hinv : fid0 ≠ u.id) :
    processMembers env ⟨fid0, chatId, msgId, none, [u]⟩ now interim
        ⟨store, numd, jbd, bid⟩ [u]
      = if env.groupStatus chatId fid0 ∈ memberStatuses then
          ⟨⟨store, numd.del (fid0, chatId), jbd, bid⟩, [], PassOutcome.done⟩
        else
          ⟨⟨store, (numd.pop (fid0, chatId)).2,
            jbd.set (fid0, chatId) true now, bid⟩,
           [Effect.banChatMember chatId u.id (now + 60),
            Effect.deleteMessage chatId msgId]
           ++ (match (numd.pop (fid0, chatId)).1 with
               | some l => l.map (fun mid => Effect.deleteMessage chatId mid)
               | none => []),
           PassOutcome.done⟩ := by
  by_cases hm : env.groupStatus chatId fid0 ∈ memberStatuses
  · have hdec : decide (env.groupStatus chatId fid0 ∈ memberStatuses) = true :=
      decide_eq_true hm
    simp only [processMembers, processMember, hbot, Bool.false_eq_true,
      if_false, hpair, ne_eq, hinv, not_false_iff, if_true, decideMember,
      hdec, hm]
    simp
  · have hdec : decide (env.groupStatus chatId fid0 ∈ memberStatuses) = false :=
      decide_eq_false hm
    simp only [processMembers, processMember, hbot, Bool.false_eq_true,
      if_false, hpair, ne_eq, hinv, not_false_iff, if_true, decideMember,
      hdec, hm]
    simp

/-! ### Claim C1: third-party invites -/

/-- C1, counterexample: group 10 is paired to front 99; user 5 (whose
status in the group the oracle reports as `"left"`) adds user 7.  The
inviter-membership check flows into the shared accept/remove decision:
the INVITED user 7 is banned until now+60 and the join-notification
message is deleted — the check does affect acceptance. -/
theorem c1_counterexample :
    Effect.banChatMember 10 7 (1000 + 60)
        ∈ (onMessageReal nonmemberEnv demoState
            ⟨5, 10, 777, none, [⟨7, false⟩]⟩ 1000 []).effs ∧
    Effect.deleteMessage 10 777
        ∈ (onMessageReal nonmemberEnv demoState
            ⟨5, 10, 777, none, [⟨7, false⟩]⟩ 1000 []).effs := by
  decide

/-- C1, amended: for a third-party invite in a paired group the engine
queries the inviter's membership of the GROUP, and that result decides
the fate of the INVITED user: if the inviter's status is
member/creator/administrator the invited user is accepted with no
effects; otherwise the invited user is banned until now+60 and the
join-notification message is deleted, with `(inviter_id, chat_id)`
marked just-banned. -/
theorem c1_invite_decides_invited
    (env : Env) (st : BotState) (now : Int) (interim : List Int)
    (u : TUser) (fid0 chatId msgId front_id : Int)
    (hbot : u.isbot = false)
    (hinv : fid0 ≠ u.id)
    (hjb : (st.just_banned.expire now).contains (fid0, chatId) = false)
    (hnum : (st.newuser_msgs.expire now).contains (fid0, chatId) = false)
    (hpair : getPair st.store chatId = some front_id)
    (hmaxb : 1 ≤ st.just_banned.maxsize) :
    (env.groupStatus chatId fid0 ∈ memberStatuses →
      (onMessageReal env st ⟨fid0, chatId, msgId, none, [u]⟩ now
          interim).effs = [] ∧
      (onMessageReal env st ⟨fid0, chatId, msgId, none, [u]⟩ now
          interim).outcome = PassOutcome.done) ∧
    (env.groupStatus chatId fid0 ∉ memberStatuses →
      (onMessageReal env st ⟨fid0, chatId, msgId, none, [u]⟩ now
          interim).effs
        = [Effect.banChatMember chatId u.id (now + 60),
           Effect.deleteMessage chatId msgId] ∧
      ((onMessageReal env st ⟨fid0, chatId, msgId, none, [u]⟩ now
          interim).st.just_banned.contains (fid0, chatId)) = true ∧
      (onMessageReal env st ⟨fid0, chatId, msgId, none, [u]⟩ now
          interim).outcome = PassOutcome.done) := by
  rw [onMessageReal_join_single env st now interim fid0 chatId msgId u hjb]
  simp only [hnum, Bool.false_eq_true, if_false]
  rw [invite_core env st.store _ (st.just_banned.expire now) st.bot_id
    u fid0 chatId msgId now interim front_id hbot hpair hinv]
  have hpop : ((st.newuser_msgs.expire now).pop (fid0, chatId)).1 = none :=
    ExpiringDict.get_eq_none_of_contains_false _ _ hnum
  constructor
  · intro hm
    simp [hm]
  · intro hm
    simp only [hm, if_neg, if_false, hpop]
    refine ⟨by simp, ?_, by trivial⟩
    exact ExpiringDict.contains_set_self _ _ _ _
      (by simpa [ExpiringDict.maxsize_expire] using hmaxb)

/-- C1 witness for the amended statement: both branches at concrete
inputs (inviter 5 reported `"member"`, then reported `"left"`). -/
theorem c1_invite_decides_invited_witness :
    (memberEnv.groupStatus 10 5 ∈ memberStatuses ∧
     (onMessageReal memberEnv demoState ⟨5, 10, 777, none, [⟨7, false⟩]⟩
        1000 []).effs = [] ∧
     (onMessageReal memberEnv demoState ⟨5, 10, 777, none, [⟨7, false⟩]⟩
        1000 []).outcome = PassOutcome.done) ∧
    (nonmemberEnv.groupStatus 10 5 ∉ memberStatuses ∧
     (onMessageReal nonmemberEnv demoState ⟨5, 10, 777, none, [⟨7, false⟩]⟩
        1000 []).effs
       = [Effect.banChatMember 10 7 (1000 + 60),
          Effect.deleteMessage 10 777] ∧
     ((onMessageReal nonmemberEnv demoState ⟨5, 10, 777, none, [⟨7, false⟩]⟩
        1000 []).st.just_banned.contains (5, 10)) = true ∧
     (onMessageReal nonmemberEnv demoState ⟨5, 10, 777, none, [⟨7, false⟩]⟩
        1000 []).outcome = PassOutcome.done) :=
  ⟨⟨by decide,
    (c1_invite_decides_invited memberEnv demoState 1000 [] ⟨7, false⟩
      5 10 777 99 rfl (by decide) (by decide) (by decide) (by decide)
      (by decide)).1 (by decide)⟩,
   ⟨by decide,
    (c1_invite_decides_invited nonmemberEnv demoState 1000 [] ⟨7, false⟩
      5 10 777 99 rfl (by decide) (by decide) (by decide) (by decide)
      (by decide)).2 (by decide)⟩⟩


/-- A self-join step whose front query raises
`TelegramForbiddenError` registers the (reset) pending entry, emits
nothing and aborts the whole pass. -/
theorem processMember_selfjoin_forbidden (env : Env) (msg : Msg)
    (now : Int) (interim : List Int) (st : BotState) (u : TUser)
    (front_id : Int)
    (hbot : u.isbot = false)
    (hself : msg.from_id = u.id)
    (hpair : getPair st.store msg.chat_id = some front_id)
    (hq : env.frontQuery front_id u.id = QueryRes.forbidden) :
    processMember env msg now interim st u
      = ⟨⟨st.store,
          (st.newuser_msgs.set (u.id, msg.chat_id) [] now).updateExisting
            (u.id, msg.chat_id) (fun l => l ++ interim),
          st.just_banned, st.bot_id⟩,
         [], some PassOutcome.forbiddenAbort⟩ := by
  simp only [processMember, hbot, Bool.false_eq_true, if_false, hpair,
    hself, ne_eq, not_true_eq_false, hq]

/-! ### Claim C6: forbidden aborts the message, other API errors fail open -/

/-- C6: during self-join handling, a `TelegramForbiddenError` from the
front-membership query aborts processing of the entire message — the
pass ends with the forbidden outcome and exactly the effects the
earlier members had already produced, so nothing is done for the
current or any remaining joining member; any other non-network API
error makes the engine treat the user as a member (fail open): the
step behaves exactly as if the query had answered `"member"`. -/
theorem c6_forbidden_aborts_api_fails_open
    (env env2 : Env) (msg : Msg) (now : Int) (interim : List Int)
    (st : BotState) (pre post : List TUser) (u : TUser) (front_id : Int)
    (hbot : u.isbot = false)
    (hself : msg.from_id = u.id)
    (hpair : getPair st.store msg.chat_id = some front_id)
    (hpre : (processMembers env msg now interim st pre).outcome
        = PassOutcome.done) :
    (env.frontQuery front_id u.id = QueryRes.forbidden →
      (processMembers env msg now interim st (pre ++ u :: post)).outcome
          = PassOutcome.forbiddenAbort ∧
      (processMembers env msg now interim st (pre ++ u :: post)).effs
          = (processMembers env msg now interim st pre).effs) ∧
    (env.frontQuery front_id u.id = QueryRes.apiError →
     env2.frontQuery front_id u.id = QueryRes.ok "member" →
      processMembers env msg now interim st [u]
        = processMembers env2 msg now interim st [u]) := by
  constructor
  · intro hq
    rw [processMembers_append_done env msg now interim st pre (u :: post) hpre]
    have hpair1 : getPair (processMembers env msg now interim st pre).st.store
        msg.chat_id = some front_id := by
      rw [processMembers_store]; exact hpair
    have hstep := processMember_selfjoin_forbidden env msg now interim
      (processMembers env msg now interim st pre).st u front_id
      hbot hself hpair1 hq
    constructor
    · simp only [processMembers, hstep]
    · simp only [processMembers, hstep]
      simp
  · intro hq hq2
    have hdec : decide (("member" : String) ∈ memberStatuses) = true := by decide
    simp only [processMembers, processMember, hbot, Bool.false_eq_true,
      if_false, hpair, hself, ne_eq, not_true_eq_false, hq, hq2, hdec,
      decideMember]

/-- Oracle whose front query always raises
`TelegramForbiddenError`. -/
def forbiddenEnv : Env := ⟨fun _ _ => QueryRes.forbidden, fun _ _ => "member"⟩

/-- Oracle whose front query always raises a non-network, non-forbidden
`TelegramAPIError`. -/
def apiErrorEnv : Env := ⟨fun _ _ => QueryRes.apiError, fun _ _ => "member"⟩

/-- C6 witness: user 7 self-joins group 10 with a remaining member 8
behind them; under the forbidden oracle the pass aborts with no
effects, and under the api-error oracle the single-member run equals
the member run. -/
theorem c6_forbidden_aborts_api_fails_open_witness :
    (forbiddenEnv.frontQuery 99 7 = QueryRes.forbidden ∧
     (processMembers forbiddenEnv ⟨7, 10, 777, none, [⟨7, false⟩, ⟨8, false⟩]⟩
        1000 [] demoState ([] ++ ⟨7, false⟩ :: [⟨8, false⟩])).outcome
       = PassOutcome.forbiddenAbort ∧
     (processMembers forbiddenEnv ⟨7, 10, 777, none, [⟨7, false⟩, ⟨8, false⟩]⟩
        1000 [] demoState ([] ++ ⟨7, false⟩ :: [⟨8, false⟩])).effs
       = (processMembers forbiddenEnv ⟨7, 10, 777, none, [⟨7, false⟩, ⟨8, false⟩]⟩
           1000 [] demoState []).effs) ∧
    (apiErrorEnv.frontQuery 99 7 = QueryRes.apiError ∧
     memberEnv.frontQuery 99 7 = QueryRes.ok "member" ∧
     processMembers apiErrorEnv ⟨7, 10, 777, none, [⟨7, false⟩]⟩
        1000 [] demoState [⟨7, false⟩]
       = processMembers memberEnv ⟨7, 10, 777, none, [⟨7, false⟩]⟩
           1000 [] demoState [⟨7, false⟩]) :=
  ⟨⟨rfl,
    (c6_forbidden_aborts_api_fails_open forbiddenEnv memberEnv
      ⟨7, 10, 777, none, [⟨7, false⟩, ⟨8, false⟩]⟩ 1000 [] demoState
      [] [⟨8, false⟩] ⟨7, false⟩ 99 rfl rfl (by decide) rfl).1 rfl⟩,
   ⟨rfl, rfl,
    (c6_forbidden_aborts_api_fails_open apiErrorEnv memberEnv
      ⟨7, 10, 777, none, [⟨7, false⟩]⟩ 1000 [] demoState
      [] [] ⟨7, false⟩ 99 rfl rfl (by decide) rfl).2 rfl rfl⟩⟩


/-! ### Membership query with retry (`get_chat_member_retrying`) -/

/-- Outcome of a single `bot.get_chat_member` attempt: a result
(modelled by its status string), a `TelegramNetworkError`, or another
`TelegramAPIError`. -/
inductive AttemptRes : Type
  | success (status : String)
  | networkErr
  | apiErr
  deriving DecidableEq

/-- How `get_chat_member_retrying` ends: a returned member (with the
index of the attempt that produced it), a re-raised network error, an
immediately propagated API error, or the implicit `None` were the loop
ever to fall through (unreachable for `range(3)`). -/
inductive RetryResult : Type
  | ok (status : String) (attempt : Nat)
  | raisedNetwork (attempt : Nat)
  | raisedApi (attempt : Nat)
  | fellThrough
  deriving DecidableEq

/-- The loop body of `get_chat_member_retrying` over the remaining
iteration indices: return on success, propagate any non-network
`TelegramAPIError` immediately, and on `TelegramNetworkError` re-raise
when `i == 2`, else continue with the next attempt. -/
def retryFrom (attempts : Nat → AttemptRes) : List Nat → RetryResult
  | [] => RetryResult.fellThrough
  | i :: rest =>
    match attempts i with
    | AttemptRes.success s => RetryResult.ok s i
    | AttemptRes.apiErr => RetryResult.raisedApi i
    | AttemptRes.networkErr =>
      if i = 2 then RetryResult.raisedNetwork i
      else retryFrom attempts rest

/-- `get_chat_member_retrying` (source lines 238-247):
`for i in range(3)`. -/
def get_chat_member_retrying (attempts : Nat → AttemptRes) : RetryResult :=
  retryFrom attempts [0, 1, 2]

/-! ### Claim C7: the retry discipline -/

/-- C7: the retried membership query makes at most 3 attempts (the
result depends only on attempts 0-2); a network failure before the
third attempt triggers an immediate retry; a network failure on the
third attempt is re-raised; a non-network API error propagates
immediately without retry; on success the first successful attempt's
result is returned. -/
theorem c7_retry_discipline (attempts attempts2 : Nat → AttemptRes)
    (s : String) :
    ((∀ i, i < 3 → attempts i = attempts2 i) →
      get_chat_member_retrying attempts = get_chat_member_retrying attempts2) ∧
    (attempts 0 = AttemptRes.success s →
      get_chat_member_retrying attempts = RetryResult.ok s 0) ∧
    (attempts 0 = AttemptRes.networkErr → attempts 1 = AttemptRes.success s →
      get_chat_member_retrying attempts = RetryResult.ok s 1) ∧
    (attempts 0 = AttemptRes.networkErr → attempts 1 = AttemptRes.networkErr →
     attempts 2 = AttemptRes.success s →
      get_chat_member_retrying attempts = RetryResult.ok s 2) ∧
    (attempts 0 = AttemptRes.networkErr → attempts 1 = AttemptRes.networkErr →
     attempts 2 = AttemptRes.networkErr →
      get_chat_member_retrying attempts = RetryResult.raisedNetwork 2) ∧
    (attempts 0 = AttemptRes.apiErr →
      get_chat_member_retrying attempts = RetryResult.raisedApi 0) ∧
    (attempts 0 = AttemptRes.networkErr → attempts 1 = AttemptRes.apiErr →
      get_chat_member_retrying attempts = RetryResult.raisedApi 1) := by
  refine ⟨?_, ?_, ?_, ?_, ?_, ?_, ?_⟩
  · intro h
    simp only [get_chat_member_retrying, retryFrom,
      h 0 (by omega), h 1 (by omega), h 2 (by omega)]
  · intro h0
    simp [get_chat_member_retrying, retryFrom, h0]
  · intro h0 h1
    simp [get_chat_member_retrying, retryFrom, h0, h1]
  · intro h0 h1 h2
    simp [get_chat_member_retrying, retryFrom, h0, h1, h2]
  · intro h0 h1 h2
    simp [get_chat_member_retrying, retryFrom, h0, h1, h2]
  · intro h0
    simp [get_chat_member_retrying, retryFrom, h0]
  · intro h0 h1
    simp [get_chat_member_retrying, retryFrom, h0, h1]

/-- C7 witness: a transient failure on the first attempt followed by a
success on the second returns that success. -/
theorem c7_retry_discipline_witness :
    ((fun i => if i = 0 then AttemptRes.networkErr
               else AttemptRes.success "member") 0 = AttemptRes.networkErr ∧
     (fun i => if i = 0 then AttemptRes.networkErr
               else AttemptRes.success "member") 1
        = AttemptRes.success "member") ∧
    get_chat_member_retrying
        (fun i => if i = 0 then AttemptRes.networkErr
                  else AttemptRes.success "member")
      = RetryResult.ok "member" 1 :=
  ⟨⟨rfl, rfl⟩,
   (c7_retry_discipline
     (fun i => if i = 0 then AttemptRes.networkErr
               else AttemptRes.success "member")
     (fun i => if i = 0 then AttemptRes.networkErr
               else AttemptRes.success "member")
     "member").2.2.1 rfl rfl⟩


/-! ### Pairing command handler (`newpair` / `newpair_impl`) -/

/-- The usage text returned on malformed arguments. -/
def NEWPAIR_USAGE : String :=
  "Usage: /newpair @front @group\n\nUsers entering @group must be in @front, or get kicked.\nYou must be an admin of @group and add me as an admin in it.\n"

/-- Chat metadata returned by `bot.get_chat`. -/
structure ChatInfo : Type where
  id : Int
  ctype : String
  deriving DecidableEq

/-- Oracle for the external calls `newpair_impl` makes:
`getChat` is `get_chat_or_fail` (`none` models `ChatUnavailable`);
`admins` is `bot.get_chat_administrators(group)` (user ids);
`chanAdminsOk` is whether `bot.get_chat_administrators(front)` succeeds
(`false` models `TelegramBadRequest`); `botId` is `bot.id`. -/
structure NPEnv : Type where
  getChat : String → Option ChatInfo
  admins : String → List Int
  chanAdminsOk : String → Bool
  botId : Int

/-- `SpamFightBot.newpair_impl` (source lines 69-101): returns the
reply text and the resulting store. -/
def newpair_impl (env : NPEnv) (store : Store) (uid : Int)
    (args : List String) : String × Store :=
  match args with
  | [_, front, group] =>
    (match env.getChat front with
     | none => ("Error: the chat " ++ front
         ++ " does not exist or is unavailable to me.", store)
     | some front_g =>
       match env.getChat group with
       | none => ("Error: the chat " ++ group
           ++ " does not exist or is unavailable to me.", store)
       | some group_g =>
         if group_g.ctype ∉ ["group", "supergroup"] then
           ("Error: " ++ group ++ " is not a group.", store)
         else if uid ∉ env.admins group then
           ("Error: you are not an admin of " ++ group ++ ".", store)
         else if env.botId ∉ env.admins group then
           ("Error: I\x27m not an admin of " ++ group ++ ".", store)
         else if front_g.ctype = "channel" ∧ ¬(env.chanAdminsOk front = true) then
           ("Error: I\x27m not an admin of " ++ front_g.ctype ++ " " ++ front
             ++ " but I need to be in order to see its members.", store)
         else
           ("Success!", pair store group_g.id front_g.id))
  | _ => (NEWPAIR_USAGE, store)

/-- Effects of the `newpair` handler: deleting the triggering command
message (the source wraps the delete in a tolerant
`try/except TelegramAPIError: pass`), or sending a private reply to
the requesting user referencing the command message. -/
inductive NPEffect : Type
  | deleteCmd
  | reply (dest : Int) (text : String) (replyTo : Int)
  deriving DecidableEq

/-- `SpamFightBot.newpair` (source lines 50-67): inside a
group/supergroup the command message is deleted and nothing is sent;
otherwise `newpair_impl` runs and its reply is sent privately. -/
def newpair (env : NPEnv) (store : Store) (chatType : String)
    (uid msgId : Int) (args : List String) : Store × List NPEffect :=
  if chatType = "group" ∨ chatType = "supergroup" then
    (store, [NPEffect.deleteCmd])
  else
    ((newpair_impl env store uid args).2,
     [NPEffect.reply uid (newpair_impl env store uid args).1 msgId])

/-! ### Claim C8: `/newpair` validation order -/

/-- C8: the `/newpair` checks apply in order with first-failure
short-circuit: group/supergroup origin (delete, no reply), then
argument count (usage text), then chat reachability (naming the
identifier as typed, front first), then group type, then requester
admin, then bot admin, then the channel-front admin-listing check;
only when all pass is the pairing committed and `Success!` replied. -/
theorem c8_newpair_validation_order (env : NPEnv) (store : Store)
    (chatType : String) (uid msgId : Int) (args : List String)
    (c front group : String) :
    ((chatType = "group" ∨ chatType = "supergroup") →
      newpair env store chatType uid msgId args = (store, [NPEffect.deleteCmd])) ∧
    (¬(chatType = "group" ∨ chatType = "supergroup") →
      ((∀ x y z : String, args ≠ [x, y, z]) →
        newpair env store chatType uid msgId args
          = (store, [NPEffect.reply uid NEWPAIR_USAGE msgId])) ∧
      (args = [c, front, group] →
        (env.getChat front = none →
          newpair env store chatType uid msgId args
            = (store, [NPEffect.reply uid ("Error: the chat " ++ front
                ++ " does not exist or is unavailable to me.") msgId])) ∧
        (∀ front_g, env.getChat front = some front_g →
          (env.getChat group = none →
            newpair env store chatType uid msgId args
              = (store, [NPEffect.reply uid ("Error: the chat " ++ group
                  ++ " does not exist or is unavailable to me.") msgId])) ∧
          (∀ group_g, env.getChat group = some group_g →
            (group_g.ctype ∉ ["group", "supergroup"] →
              newpair env store chatType uid msgId args
                = (store, [NPEffect.reply uid ("Error: " ++ group
                    ++ " is not a group.") msgId])) ∧
            (group_g.ctype ∈ ["group", "supergroup"] →
              (uid ∉ env.admins group →
                newpair env store chatType uid msgId args
                  = (store, [NPEffect.reply uid
                      ("Error: you are not an admin of " ++ group ++ ".")
                      msgId])) ∧
              (uid ∈ env.admins group →
                (env.botId ∉ env.admins group →
                  newpair env store chatType uid msgId args
                    = (store, [NPEffect.reply uid
                        ("Error: I\x27m not an admin of " ++ group ++ ".")
                        msgId])) ∧
                (env.botId ∈ env.admins group →
                  (front_g.ctype = "channel" ∧ ¬(env.chanAdminsOk front = true) →
                    newpair env store chatType uid msgId args
                      = (store, [NPEffect.reply uid
                          ("Error: I\x27m not an admin of " ++ front_g.ctype
                            ++ " " ++ front
                            ++ " but I need to be in order to see its members.")
                          msgId])) ∧
                  (¬(front_g.ctype = "channel" ∧ ¬(env.chanAdminsOk front = true)) →
                    newpair env store chatType uid msgId args
                      = (pair store group_g.id front_g.id,
                         [NPEffect.reply uid "Success!" msgId]))))))))) := by
  constructor
  · intro hct
    simp [newpair, hct]
  · intro hct
    constructor
    · intro hargs
      rcases args with _ | ⟨a, _ | ⟨b, _ | ⟨d, _ | ⟨e, rest⟩⟩⟩⟩
      · simp [newpair, newpair_impl, hct]
      · simp [newpair, newpair_impl, hct]
      · simp [newpair, newpair_impl, hct]
      · exact absurd rfl (hargs a b d)
      · simp [newpair, newpair_impl, hct]
    · rintro rfl
      constructor
      · intro hf
        simp [newpair, newpair_impl, hct, hf]
      · intro front_g hf
        constructor
        · intro hg
          simp [newpair, newpair_impl, hct, hf, hg]
        · intro group_g hg
          constructor
          · intro hgt
            simp [newpair, newpair_impl, hct, hf, hg, hgt]
          · intro hgt
            have hgt2 : group_g.ctype = "group" ∨ group_g.ctype = "supergroup" := by
              simpa using hgt
            constructor
            · intro hadm
              rcases hgt2 with h1 | h1 <;>
                simp [newpair, newpair_impl, hct, hf, hg, h1, hadm]
            · intro hadm
              constructor
              · intro hbadm
                rcases hgt2 with h1 | h1 <;>
                  simp [newpair, newpair_impl, hct, hf, hg, h1, hadm, hbadm]
              · intro hbadm
                constructor
                · intro hchan
                  have hchan2 := hchan.2
                  simp only [Bool.not_eq_true] at hchan2
                  rcases hgt2 with h1 | h1 <;>
                    simp [newpair, newpair_impl, hct, hf, hg, h1, hadm,
                      hbadm, hchan.1, hchan2]
                · intro hchan
                  have hchan2 : ¬(front_g.ctype = "channel"
                      ∧ env.chanAdminsOk front = false) := by
                    simpa [Bool.not_eq_true] using hchan
                  rcases hgt2 with h1 | h1 <;>
                    simp [newpair, newpair_impl, hct, hf, hg, h1, hadm,
                      hbadm, hchan2]


/-- A `/newpair` oracle: `@f` resolves to supergroup 99, `@g` to
supergroup 10; the group's admins are users 5 and 42; the bot is
user 42. -/
def npDemoEnv : NPEnv :=
  ⟨fun s => if s = "@f" then some ⟨99, "supergroup"⟩
            else if s = "@g" then some ⟨10, "supergroup"⟩ else none,
   fun _ => [5, 42], fun _ => true, 42⟩

/-- C8 witness: the all-checks-pass path at a concrete environment —
`/newpair @f @g` from admin 5 in a private chat commits the pairing
and replies `Success!`. -/
theorem c8_newpair_validation_order_witness :
    (¬(("private" : String) = "group" ∨ ("private" : String) = "supergroup") ∧
     npDemoEnv.getChat "@f" = some ⟨99, "supergroup"⟩ ∧
     npDemoEnv.getChat "@g" = some ⟨10, "supergroup"⟩ ∧
     (5 : Int) ∈ npDemoEnv.admins "@g" ∧
     npDemoEnv.botId ∈ npDemoEnv.admins "@g" ∧
     ¬((⟨99, "supergroup"⟩ : ChatInfo).ctype = "channel"
        ∧ ¬(npDemoEnv.chanAdminsOk "@f" = true))) ∧
    newpair npDemoEnv [] "private" 5 1 ["/newpair", "@f", "@g"]
      = (pair [] 10 99, [NPEffect.reply 5 "Success!" 1]) :=
  ⟨⟨by decide, rfl, rfl, by decide, by decide, by decide⟩,
   ((((((((c8_newpair_validation_order npDemoEnv [] "private" 5 1
       ["/newpair", "@f", "@g"] "/newpair" "@f" "@g").2
     (by decide)).2 rfl).2 ⟨99, "supergroup"⟩ rfl).2 ⟨10, "supergroup"⟩
     rfl).2 (by decide)).2 (by decide)).2 (by decide)).2 (by decide)⟩

/-! ### Claim C9: non-admin requester mutates nothing -/

/-- C9: when the `/newpair` requester is not an administrator of the
target group, the handler replies with an error naming the group as
the caller typed it, and the store — the pairing mapping together with
the persisted `front_groups` set — is returned unchanged. -/
theorem c9_not_admin_no_mutation
    (env : NPEnv) (store : Store) (chatType : String) (uid msgId : Int)
    (c front group : String) (front_g group_g : ChatInfo)
    (hct : ¬(chatType = "group" ∨ chatType = "supergroup"))
    (hf : env.getChat front = some front_g)
    (hg : env.getChat group = some group_g)
    (hgt : group_g.ctype ∈ ["group", "supergroup"])
    (hadm : uid ∉ env.admins group) :
    newpair env store chatType uid msgId [c, front, group]
      = (store, [NPEffect.reply uid
          ("Error: you are not an admin of " ++ group ++ ".") msgId]) := by
  have hgt2 : group_g.ctype = "group" ∨ group_g.ctype = "supergroup" := by
    simpa using hgt
  rcases hgt2 with h1 | h1 <;>
    simp [newpair, newpair_impl, hct, hf, hg, h1, hadm]

/-- C9 witness: user 6 (not among the admins 5 and 42) asks to pair
`@f` and `@g`; the reply names `@g` and the store is unchanged. -/
theorem c9_not_admin_no_mutation_witness :
    (¬(("private" : String) = "group" ∨ ("private" : String) = "supergroup") ∧
     npDemoEnv.getChat "@f" = some ⟨99, "supergroup"⟩ ∧
     npDemoEnv.getChat "@g" = some ⟨10, "supergroup"⟩ ∧
     (⟨10, "supergroup"⟩ : ChatInfo).ctype ∈ ["group", "supergroup"] ∧
     (6 : Int) ∉ npDemoEnv.admins "@g") ∧
    newpair npDemoEnv demoStore "private" 6 1 ["/newpair", "@f", "@g"]
      = (demoStore, [NPEffect.reply 6
          ("Error: you are not an admin of " ++ "@g" ++ ".") 1]) :=
  ⟨⟨by decide, rfl, rfl, by decide, by decide⟩,
   c9_not_admin_no_mutation npDemoEnv demoStore "private" 6 1
     "/newpair" "@f" "@g" ⟨99, "supergroup"⟩ ⟨10, "supergroup"⟩
     (by decide) rfl rfl (by decide) (by decide)⟩

end Spamfight
